import Mathlib

/-!
Verification of the sandboxed tool dispatcher of `granite-coder`
(`src/agent.py`, class `GreedyAgent`): the path sanitizer
`_sanitize_path`, the four filesystem tools, the tool executor
`_execute_tool` and the response orchestrator `_process_response`.

The embedding models POSIX path strings directly, mirroring the parts of
Python's `posixpath` module that the source calls (`os.path.join`,
`os.path.abspath` / `normpath`, `os.path.dirname`, `os.path.relpath`).
The current working directory, which `os.path.abspath` reads implicitly,
is passed as an explicit `cwd` argument.  The filesystem is modelled as
an explicit state (`FS`): a list of directories and an association list
of files; the order of those lists models the OS's directory-enumeration
order, which POSIX leaves unspecified.
-/

/-- Python `s.startswith(pre)` for strings (true iff `pre` is a leading
substring of `s`). -/
def pyStartswith (s pre : String) : Bool :=
  List.isPrefixOf pre.data s.data

/-- Python `s.endswith(suf)`. -/
def pyEndswith (s suf : String) : Bool :=
  List.isSuffixOf suf.data s.data

/-- Python `s.split('/')` (keeps empty segments, like `str.split` with an
explicit separator). -/
def splitSlashAux : List Char → List Char → List String
  | [], acc => [String.mk acc.reverse]
  | c :: rest, acc =>
      if c = '/' then String.mk acc.reverse :: splitSlashAux rest []
      else splitSlashAux rest (c :: acc)

/-- `splitSlash s` is Python `s.split('/')`. -/
def splitSlash (s : String) : List String :=
  splitSlashAux s.data []

/-- Python `sep.join(parts)`. -/
def joinWith (sep : String) : List String → String
  | [] => ""
  | [x] => x
  | x :: y :: rest => x ++ sep ++ joinWith sep (y :: rest)

/-- Python `os.path.join(a, b)` on POSIX: an absolute second argument
discards the first; otherwise the two are joined with a single slash. -/
def pyJoin (a b : String) : String :=
  if pyStartswith b "/" then b
  else if a = "" ∨ pyEndswith a "/" then a ++ b
  else a ++ "/" ++ b

/-- The component loop of `posixpath.normpath`: drops empty and `.`
segments and resolves `..` arithmetically (a leading `..` is kept for
relative paths and dropped at the root of absolute ones). -/
def normComps (initialSlashes : Nat) (comps : List String) : List String :=
  comps.foldl
    (fun acc comp =>
      if comp = "" ∨ comp = "." then acc
      else if comp ≠ ".." ∨ (initialSlashes = 0 ∧ acc = []) ∨ acc.getLast? = some ".." then
        acc ++ [comp]
      else acc.dropLast)
    []

/-- Python `posixpath.normpath`.  A path starting with exactly two
slashes keeps them (POSIX treats `//` specially); otherwise at most one
leading slash survives. -/
def normpath (p : String) : String :=
  if p = "" then "."
  else
    let initialSlashes : Nat :=
      if pyStartswith p "/" then
        if pyStartswith p "//" ∧ ¬ pyStartswith p "///" then 2 else 1
      else 0
    let comps := normComps initialSlashes (splitSlash p)
    let res := String.mk (List.replicate initialSlashes '/') ++ joinWith "/" comps
    if res = "" then "." else res

/-- Python `os.path.abspath` on POSIX with the process working directory
`cwd` made explicit: a relative path is joined onto `cwd` first, and the
result is normalised. -/
def abspath (cwd p : String) : String :=
  if pyStartswith p "/" then normpath p else normpath (pyJoin cwd p)

/-- Python `posixpath.dirname`: everything before the final slash, with
trailing slashes stripped unless the head is all slashes. -/
def dirname (s : String) : String :=
  let restRev := s.data.reverse.dropWhile (fun c => c ≠ '/')
  if restRev = [] then ""
  else if restRev.all (fun c => c = '/') then String.mk restRev.reverse
  else String.mk ((restRev.dropWhile (fun c => c = '/')).reverse)

/-- Python `posixpath.basename`: everything after the final slash. -/
def basename (s : String) : String :=
  String.mk ((s.data.reverse.takeWhile (fun c => c ≠ '/')).reverse)

/-- `GreedyAgent._sanitize_path` (src/agent.py:177-183): resolves
`basePath` and `basePath/path` to absolute form and accepts iff the
latter string-starts-with the former, returning the resolved absolute
path; otherwise it raises `ValueError` (modelled as `Except.error` with
the exact message string). -/
def sanitizePath (path basePath cwd : String) : Except String String :=
  let absBase := abspath cwd basePath
  let absPath := abspath cwd (pyJoin basePath path)
  if pyStartswith absPath absBase then Except.ok absPath
  else Except.error ("Path \x27" ++ path ++ "\x27 is outside allowed directory")

/-- Component-wise path containment, following the spec's words
(section 4.1): `a` is within `b` iff `a` equals `b` or `b`, taken as a
whole path component-prefix (i.e. followed by a path separator), leads
`a`.  This is the "component-wise, not substring" notion: for normalised
paths, `b ++ "/"` leading `a` says exactly that `b`'s component list is
a proper leading segment of `a`'s, so `/tmp/sandboxed` is not within
`/tmp/sandbox`. -/
def pathWithin (a b : String) : Bool :=
  if a = b then true
  else if pyEndswith b "/" then pyStartswith a b
  else pyStartswith a (b ++ "/")

/-- Length of the common leading segment of two component lists (used
by `relpath`). -/
def commonLen : List String → List String → Nat
  | a :: as, b :: bs => if a = b then commonLen as bs + 1 else 0
  | _, _ => 0

/-- Python `os.path.relpath(p, start)` on POSIX (explicit `cwd`). -/
def relpath (cwd p start : String) : String :=
  let pl := (splitSlash (abspath cwd p)).filter (fun x => x ≠ "")
  let sl := (splitSlash (abspath cwd start)).filter (fun x => x ≠ "")
  let i := commonLen pl sl
  let rel := List.replicate (sl.length - i) ".." ++ pl.drop i
  if rel = [] then "." else joinWith "/" rel

/-- One character-class item match for `fnmatch` (supports `a-z` ranges,
otherwise literal membership). -/
def classMatch : List Char → Char → Bool
  | a :: '-' :: b :: rest, c => (a ≤ c ∧ c ≤ b) || classMatch rest c
  | a :: rest, c => (a = c) || classMatch rest c
  | [], _ => false

/-- Splits a `[...]` class body from the remainder of the pattern;
`none` when there is no closing bracket (then `[` is literal).  A `]`
in first position is part of the class, as in `fnmatch`. -/
def splitClass : List Char → List Char → Option (List Char × List Char)
  | _, [] => none
  | acc, c :: rest =>
      if c = ']' ∧ acc ≠ [] then some (acc.reverse, rest)
      else splitClass (c :: acc) rest

/-- The matcher of Python's `fnmatch.fnmatchcase`, on explicit fuel so
that it is structurally recursive (the fuel passed by `fnmatch` always
suffices: every step consumes pattern or name).  Supports `*`, `?` and
`[...]` classes with `!` negation. -/
def fnmatchAux : Nat → List Char → List Char → Bool
  | 0, _, _ => false
  | _ + 1, [], [] => true
  | _ + 1, [], _ :: _ => false
  | fuel + 1, p :: ps, ns =>
      if p = '*' then
        fnmatchAux fuel ps ns ||
          (match ns with
           | [] => false
           | _ :: ns2 => fnmatchAux fuel ('*' :: ps) ns2)
      else if p = '?' then
        match ns with
        | [] => false
        | _ :: ns2 => fnmatchAux fuel ps ns2
      else if p = '[' then
        match splitClass [] ps with
        | none =>
            (match ns with
             | [] => false
             | n :: ns2 => (n = '[') && fnmatchAux fuel ps ns2)
        | some (cls, ps2) =>
            (match ns with
             | [] => false
             | n :: ns2 =>
                 (match cls with
                  | '!' :: cls2 => !classMatch cls2 n
                  | _ => classMatch cls n) && fnmatchAux fuel ps2 ns2)
      else
        match ns with
        | [] => false
        | n :: ns2 => (p = n) && fnmatchAux fuel ps ns2

/-- Python `fnmatch.fnmatchcase(name, pat)`. -/
def fnmatch (pat name : String) : Bool :=
  fnmatchAux (pat.length + name.length + 1) pat.data name.data

/-- One glob component match: like `fnmatch`, but a hidden name (leading
dot) is only matched by a pattern that itself starts with a dot, as in
the `glob` module. -/
def compMatch (pat name : String) : Bool :=
  if pyStartswith name "." ∧ ¬ pyStartswith pat "." then false
  else fnmatch pat name

/-- Component-list match for `glob.glob(..., recursive=True)`: `**`
matches any number of non-hidden components (including none); every
other component goes through `compMatch`.  Fuel keeps the recursion
structural; `globMatch` passes enough for every call chain. -/
def matchCompsAux : Nat → List String → List String → Bool
  | 0, _, _ => false
  | _ + 1, [], [] => true
  | _ + 1, [], _ :: _ => false
  | fuel + 1, p :: ps, ns =>
      if p = "**" then
        matchCompsAux fuel ps ns ||
          (match ns with
           | [] => false
           | n :: ns2 =>
               if pyStartswith n "." then false
               else matchCompsAux fuel (p :: ps) ns2)
      else
        match ns with
        | [] => false
        | n :: ns2 => compMatch p n && matchCompsAux fuel ps ns2

/-- Non-empty, non-`.` components of a path or pattern string. -/
def pathComps (s : String) : List String :=
  (splitSlash s).filter (fun c => c ≠ "" ∧ c ≠ ".")

/-- Whether absolute path `q` matches the absolute glob pattern `full`
(component-wise, `recursive=True` semantics). -/
def globMatch (full q : String) : Bool :=
  matchCompsAux ((pathComps full).length + (pathComps q).length + 1)
    (pathComps full) (pathComps q)

/-- Filesystem state: absolute normalised directory paths and an
association list from absolute normalised file paths to their textual
contents.  List order models the OS's directory-enumeration order
(`os.scandir` order), which POSIX leaves unspecified. -/
structure FS where
  dirs : List String
  files : List (String × String)

/-- First-match lookup in the file association list (the contents
`open(p).read()` would see). -/
def lookupFile : List (String × String) → String → Option String
  | [], _ => none
  | (q, d) :: rest, p => if q = p then some d else lookupFile rest p

/-- In-place overwrite-or-append of a file binding, modelling
`open(p, "w")` truncating an existing file or creating a new one. -/
def setFile : List (String × String) → String → String → List (String × String)
  | [], p, c => [(p, c)]
  | (q, d) :: rest, p, c =>
      if q = p then (p, c) :: rest else (q, d) :: setFile rest p c

/-- The ancestor chain `os.makedirs` may create: the directory itself
and each `dirname` above it, on explicit fuel (a path's length bounds
the chain). -/
def ancestorsAux : Nat → String → List String
  | 0, _ => []
  | n + 1, d =>
      d :: (if dirname d = d ∨ dirname d = "" then [] else ancestorsAux n (dirname d))

/-- All directories `os.makedirs(d)` ensures exist. -/
def ancestorChain (d : String) : List String :=
  ancestorsAux (d.length + 1) d

/-- `os.makedirs(d, exist_ok=True)`: adds the missing directories of the
ancestor chain to the state. -/
def mkdirs (fs : FS) (d : String) : FS :=
  { fs with dirs := fs.dirs ++ (ancestorChain d).filter (fun a => ¬ fs.dirs.contains a) }

/-- Python `open(p, "r").read()` applies universal-newline translation:
`\r\n` and lone `\r` both become `\n`. -/
def univNewlines : List Char → List Char
  | [] => []
  | '\r' :: '\n' :: rest => '\n' :: univNewlines rest
  | '\r' :: rest => '\n' :: univNewlines rest
  | c :: rest => c :: univNewlines rest

/-- The text that reading a file whose stored bytes are `c` returns. -/
def pyReadText (c : String) : String :=
  String.mk (univNewlines c.data)

/-- Result of one tool: the `Except` models Python exceptions crossing
the tool's boundary, `fs` the filesystem afterwards, and `log` the raw
filesystem accesses performed (empty iff nothing was touched). -/
structure ToolOut where
  result : Except String String
  fs : FS
  log : List String

/-- `GreedyAgent._tool_read_file` (src/agent.py:185-189): sanitize, then
`open(safe_path).read()`; a missing file raises `FileNotFoundError`. -/
def toolReadFile (path basePath cwd : String) (fs : FS) : ToolOut :=
  match sanitizePath path basePath cwd with
  | Except.error e => ⟨Except.error e, fs, []⟩
  | Except.ok sp =>
      match lookupFile fs.files sp with
      | some c => ⟨Except.ok (pyReadText c), fs, ["open " ++ sp]⟩
      | none =>
          ⟨Except.error ("[Errno 2] No such file or directory: \x27" ++ sp ++ "\x27"),
           fs, ["open " ++ sp]⟩

/-- `GreedyAgent._tool_write_file` (src/agent.py:191-199): sanitize,
`os.makedirs(dirname, exist_ok=True)` when the dirname is non-empty,
write the content, and report the original (pre-sanitised) path.  On
Linux, text-mode writing stores the content unchanged
(`os.linesep = "\n"`). -/
def toolWriteFile (path content basePath cwd : String) (fs : FS) : ToolOut :=
  match sanitizePath path basePath cwd with
  | Except.error e => ⟨Except.error e, fs, []⟩
  | Except.ok sp =>
      let d := dirname sp
      let fs1 := if d = "" then fs else mkdirs fs d
      let fs2 := { fs1 with files := setFile fs1.files sp content }
      ⟨Except.ok ("Successfully wrote to " ++ path), fs2,
       (if d = "" then [] else ["makedirs " ++ d]) ++ ["open " ++ sp]⟩

/-- Names of the entries directly inside directory `p`, in enumeration
order (`os.listdir`). -/
def childNames (fs : FS) (p : String) : List String :=
  (fs.dirs ++ fs.files.map Prod.fst).filterMap
    (fun q => if dirname q = p ∧ q ≠ p then some (basename q) else none)

/-- `GreedyAgent._tool_list_dir` (src/agent.py:201-205): sanitize, then
`os.listdir`; a missing directory raises `FileNotFoundError`. -/
def toolListDir (path basePath cwd : String) (fs : FS) : ToolOut :=
  match sanitizePath path basePath cwd with
  | Except.error e => ⟨Except.error e, fs, []⟩
  | Except.ok sp =>
      if fs.dirs.contains sp then
        ⟨Except.ok (joinWith "\n" (childNames fs sp)), fs, ["listdir " ++ sp]⟩
      else
        ⟨Except.error ("[Errno 2] No such file or directory: \x27" ++ sp ++ "\x27"),
         fs, ["listdir " ++ sp]⟩

/-- The paths a filesystem state enumerates, in enumeration order. -/
def enumFS (fs : FS) : List String :=
  fs.dirs ++ fs.files.map Prod.fst

/-- `glob.glob(full, recursive=True)` over the state: the enumerated
paths matching the pattern, in enumeration order (the `glob` module does
not sort). -/
def globMatches (fs : FS) (full : String) : List String :=
  (enumFS fs).filter (fun q => globMatch full q)

/-- `GreedyAgent._tool_search_files` (src/agent.py:207-211): sanitize,
glob `os.path.join(safe_path, pattern)` recursively, and newline-join
the matches relative to the sanitised path. -/
def toolSearchFiles (pattern path basePath cwd : String) (fs : FS) : ToolOut :=
  match sanitizePath path basePath cwd with
  | Except.error e => ⟨Except.error e, fs, []⟩
  | Except.ok sp =>
      let full := pyJoin sp pattern
      let ms := globMatches fs full
      ⟨Except.ok (joinWith "\n" (ms.map (fun m => relpath cwd m sp))), fs,
       ["glob " ++ full]⟩

/-- Python `args.get(key, "")` on the argument mapping. -/
def argOr (args : List (String × String)) (k : String) : String :=
  match args.lookup k with
  | some v => v
  | none => ""

/-- The dispatch chain inside `GreedyAgent._execute_tool`
(src/agent.py:158-175): the string-keyed conditional selecting a tool;
an unknown name returns the `Unknown tool` string without touching the
filesystem. -/
def dispatchTool (name : String) (args : List (String × String)) (basePath cwd : String) (fs : FS) : ToolOut :=
  if name = "read_file" then toolReadFile (argOr args "path") basePath cwd fs
  else if name = "write_file" then
    toolWriteFile (argOr args "path") (argOr args "content") basePath cwd fs
  else if name = "list_dir" then toolListDir (argOr args "path") basePath cwd fs
  else if name = "search_files" then
    toolSearchFiles (argOr args "pattern") (argOr args "path") basePath cwd fs
  else ⟨Except.ok ("Unknown tool: " ++ name), fs, []⟩

/-- `GreedyAgent._execute_tool` (src/agent.py:158-175): runs the
dispatch chain under `try/except Exception`, turning any raised error
into the textual result `Error executing <name>: <message>`. -/
def executeTool (name : String) (args : List (String × String)) (basePath cwd : String) (fs : FS) : String × FS :=
  let t := dispatchTool name args basePath cwd fs
  match t.result with
  | Except.ok s => (s, t.fs)
  | Except.error e => ("Error executing " ++ name ++ ": " ++ e, t.fs)

/-- One item of the `output` array of a responses-API payload, as
`_process_response` inspects it: a function call (arguments already
JSON-decoded into a mapping), a message with `(type, text)` content
items, or anything else (ignored). -/
inductive RespItem where
  | functionCall (name : String) (args : List (String × String))
  | message (contents : List (String × String))
  | otherItem

/-- The texts the inner loop of `_process_response` collects from one
message item: each content entry of type `output_text`. -/
def outputTexts (contents : List (String × String)) : List String :=
  contents.filterMap (fun c => if c.1 = "output_text" then some c.2 else none)

/-- `GreedyAgent._process_response` (src/agent.py:141-156): one pass
over the output items, appending `Tool <name>: <result>` for each
function call (executed on the spot, threading the filesystem) and the
`output_text` texts of each message, then newline-joining the collected
results.  `respStep` is the body of the `for item in data.get("output", [])`
loop: it extends the accumulated results list and threads the filesystem
through any tool execution. -/
def respStep (basePath cwd : String) (acc : List String × FS) (item : RespItem) : List String × FS :=
  match item with
  | RespItem.functionCall n a =>
      let r := executeTool n a basePath cwd acc.2
      (acc.1 ++ ["Tool " ++ n ++ ": " ++ r.1], r.2)
  | RespItem.message cs => (acc.1 ++ outputTexts cs, acc.2)
  | RespItem.otherItem => acc

/-- The whole of `_process_response`: fold the loop body over the items
starting from an empty results list, then newline-join. -/
def processResponse (items : List RespItem) (basePath cwd : String) (fs : FS) : String × FS :=
  let resFold := items.foldl (respStep basePath cwd) ([], fs)
  (joinWith "\n" resFold.1, resFold.2)

/-- `List.isPrefixOf` is reflexive. -/
theorem isPrefixOf_self (l : List Char) : List.isPrefixOf l l = true := by
  simp

/-- A list leads any extension of itself. -/
theorem isPrefixOf_append_self (l t : List Char) : List.isPrefixOf l (l ++ t) = true := by
  simp

/-- `List.isPrefixOf` is transitive. -/
theorem isPrefixOf_trans {a b c : List Char}
    (h1 : List.isPrefixOf a b = true) (h2 : List.isPrefixOf b c = true) :
    List.isPrefixOf a c = true := by
  simp at h1 h2 ⊢
  exact h1.trans h2

/-- Component-wise containment implies the string-leading check that
`_sanitize_path` actually performs. -/
theorem startswith_of_within {a b : String} (h : pathWithin a b = true) :
    pyStartswith a b = true := by
  unfold pathWithin at h
  split at h
  · next heq => subst heq; simp [pyStartswith, isPrefixOf_self]
  · split at h
    · exact h
    · unfold pyStartswith at h ⊢
      have hd : (b ++ "/").data = b.data ++ ['/'] := rfl
      have hb : List.isPrefixOf b.data (b ++ "/").data = true := by
        rw [hd]; exact isPrefixOf_append_self b.data ['/']
      exact isPrefixOf_trans hb h

/-- Claim C1 (code_bug evidence): against sandbox root `/tmp/sandbox`
the sanitizer accepts the relative path `../sandboxed/secret`, whose
resolution `/tmp/sandboxed/secret` is outside the root component-wise:
`_sanitize_path` compares string leading-substrings, so the sibling
directory `/tmp/sandboxed` passes the check, contradicting the spec's
requirement that the root match as a component-wise path-prefix and
that every escaping resolution fail with a path-escape error. -/
theorem sanitize_accepts_sibling_escape :
    sanitizePath "../sandboxed/secret" "/tmp/sandbox" "/" =
      Except.ok "/tmp/sandboxed/secret" ∧
    pathWithin "/tmp/sandboxed/secret" "/tmp/sandbox" = false :=
  ⟨rfl, rfl⟩

/-- Claim C2: when the sanitizer rejects the supplied path, each of the
four tools returns that very error with the filesystem state unchanged
and an empty access log — no filesystem read or mutation happens before
path validation succeeds. -/
theorem tools_no_fs_access_on_sanitize_failure
    (p pat c basePath cwd msg : String) (fs : FS)
    (h : sanitizePath p basePath cwd = Except.error msg) :
    toolReadFile p basePath cwd fs = ⟨Except.error msg, fs, []⟩ ∧
    toolWriteFile p c basePath cwd fs = ⟨Except.error msg, fs, []⟩ ∧
    toolListDir p basePath cwd fs = ⟨Except.error msg, fs, []⟩ ∧
    toolSearchFiles pat p basePath cwd fs = ⟨Except.error msg, fs, []⟩ := by
  refine ⟨?_, ?_, ?_, ?_⟩ <;>
    simp [toolReadFile, toolWriteFile, toolListDir, toolSearchFiles, h]

/-- Witness for C2 at the spec's escaping example `../../etc/passwd`. -/
theorem tools_no_fs_access_on_sanitize_failure_witness :
    sanitizePath "../../etc/passwd" "/tmp/sandbox" "/" =
      Except.error "Path \x27../../etc/passwd\x27 is outside allowed directory" ∧
    toolReadFile "../../etc/passwd" "/tmp/sandbox" "/"
        ⟨["/tmp/sandbox"], [("/tmp/sandbox/a.txt", "x")]⟩ =
      ⟨Except.error "Path \x27../../etc/passwd\x27 is outside allowed directory",
       ⟨["/tmp/sandbox"], [("/tmp/sandbox/a.txt", "x")]⟩, []⟩ :=
  ⟨rfl,
   (tools_no_fs_access_on_sanitize_failure "../../etc/passwd" "p" "c" "/tmp/sandbox" "/"
      "Path \x27../../etc/passwd\x27 is outside allowed directory"
      ⟨["/tmp/sandbox"], [("/tmp/sandbox/a.txt", "x")]⟩ rfl).1⟩

/-- Claim C3: a relative path whose resolution against the root stays
within the root (component-wise) is accepted by the sanitizer, which
returns exactly that resolution — a descendant of, or equal to, the
root. -/
theorem sanitize_ok_of_within (p R cwd : String)
    (_hrel : pyStartswith p "/" = false)
    (hin : pathWithin (abspath cwd (pyJoin R p)) (abspath cwd R) = true) :
    sanitizePath p R cwd = Except.ok (abspath cwd (pyJoin R p)) ∧
    pathWithin (abspath cwd (pyJoin R p)) (abspath cwd R) = true := by
  refine ⟨?_, hin⟩
  have hs := startswith_of_within hin
  simp [sanitizePath, hs]

/-- Witness for C3 at `a/../b` under root `/tmp/sandbox`. -/
theorem sanitize_ok_of_within_witness :
    pyStartswith "a/../b" "/" = false ∧
    pathWithin (abspath "/" (pyJoin "/tmp/sandbox" "a/../b")) (abspath "/" "/tmp/sandbox") = true ∧
    sanitizePath "a/../b" "/tmp/sandbox" "/" = Except.ok "/tmp/sandbox/b" :=
  ⟨rfl, rfl, (sanitize_ok_of_within "a/../b" "/tmp/sandbox" "/" rfl rfl).1.trans rfl⟩

/-- Claim C4: whatever the dispatched operation reports as an error, the
executor catches it and turns it into the textual result
`Error executing <name>: <message>` — nothing propagates past the
executor's boundary. -/
theorem executeTool_converts_errors
    (name : String) (args : List (String × String)) (basePath cwd : String)
    (fs : FS) (e : String)
    (h : (dispatchTool name args basePath cwd fs).result = Except.error e) :
    (executeTool name args basePath cwd fs).1 =
      "Error executing " ++ name ++ ": " ++ e := by
  simp [executeTool, h]

/-- Witness for C4: `read_file` on a missing path yields a result
containing `Error executing read_file` instead of propagating. -/
theorem executeTool_converts_errors_witness :
    (executeTool "read_file" [("path", "nope.txt")] "/tmp/sandbox" "/"
        ⟨["/tmp/sandbox"], []⟩).1 =
      "Error executing read_file: [Errno 2] No such file or directory: \x27/tmp/sandbox/nope.txt\x27" :=
  (executeTool_converts_errors "read_file" [("path", "nope.txt")] "/tmp/sandbox" "/"
      ⟨["/tmp/sandbox"], []⟩
      "[Errno 2] No such file or directory: \x27/tmp/sandbox/nope.txt\x27" rfl).trans rfl

/-- Claim C5: any tool name outside the fixed set falls through the
dispatch chain to the `Unknown tool` result, with the filesystem
untouched and no exception raised. -/
theorem executeTool_unknown_tool
    (name : String) (args : List (String × String)) (basePath cwd : String) (fs : FS)
    (h1 : name ≠ "read_file") (h2 : name ≠ "write_file")
    (h3 : name ≠ "list_dir") (h4 : name ≠ "search_files") :
    executeTool name args basePath cwd fs = ("Unknown tool: " ++ name, fs) := by
  simp [executeTool, dispatchTool, h1, h2, h3, h4]

/-- Witness for C5 at the spec's example name `delete_everything`. -/
theorem executeTool_unknown_tool_witness :
    executeTool "delete_everything" [("path", "/")] "/tmp/sandbox" "/"
        ⟨["/tmp/sandbox"], [("/tmp/sandbox/a.txt", "x")]⟩ =
      ("Unknown tool: delete_everything",
       ⟨["/tmp/sandbox"], [("/tmp/sandbox/a.txt", "x")]⟩) :=
  (executeTool_unknown_tool "delete_everything" [("path", "/")] "/tmp/sandbox" "/"
      ⟨["/tmp/sandbox"], [("/tmp/sandbox/a.txt", "x")]⟩
      (by decide) (by decide) (by decide) (by decide)).trans rfl

/-- Overwriting a binding makes the lookup see the new content. -/
theorem lookupFile_setFile :
    ∀ (files : List (String × String)) (p c : String),
      lookupFile (setFile files p c) p = some c := by
  intro files
  induction files with
  | nil => intro p c; simp [setFile, lookupFile]
  | cons qd rest ih =>
    intro p c
    by_cases hq : qd.1 = p
    · simp [setFile, lookupFile, hq]
    · simp [setFile, lookupFile, hq, ih]

/-- Claim C6 counterexample: the round trip is not byte-for-byte.
Writing `"a\r\n"` to `f.txt` and reading it back yields `"a\n"`: the
source reads with Python's default universal-newline text mode, which
translates `\r\n` (and lone `\r`) to `\n`. -/
theorem roundtrip_not_exact_counterexample :
    sanitizePath "f.txt" "/tmp/sandbox" "/" = Except.ok "/tmp/sandbox/f.txt" ∧
    (toolReadFile "f.txt" "/tmp/sandbox" "/"
        (toolWriteFile "f.txt" "a\r\n" "/tmp/sandbox" "/" ⟨["/tmp/sandbox"], []⟩).fs).result =
      Except.ok "a\n" ∧
    ("a\n" : String) ≠ "a\r\n" :=
  ⟨rfl, rfl, by decide⟩

/-- Claim C6 (amended): for every path that sanitizes successfully,
writing content `c` and then reading the same path returns `c` with
universal-newline translation applied (`\r\n` and `\r` become `\n`); in
particular it returns exactly `c` whenever `c` contains no carriage
return. -/
theorem write_then_read_roundtrip (p c basePath cwd : String) (fs : FS) (sp : String)
    (h : sanitizePath p basePath cwd = Except.ok sp) :
    (toolReadFile p basePath cwd (toolWriteFile p c basePath cwd fs).fs).result =
      Except.ok (pyReadText c) := by
  simp [toolWriteFile, toolReadFile, h, lookupFile_setFile]

/-- Witness for C6 (amended) at carriage-return-free content, where the
round trip is exact. -/
theorem write_then_read_roundtrip_witness :
    sanitizePath "f.txt" "/tmp/sandbox" "/" = Except.ok "/tmp/sandbox/f.txt" ∧
    (toolReadFile "f.txt" "/tmp/sandbox" "/"
        (toolWriteFile "f.txt" "hello\nworld" "/tmp/sandbox" "/" ⟨["/tmp/sandbox"], []⟩).fs).result =
      Except.ok "hello\nworld" :=
  ⟨rfl,
   (write_then_read_roundtrip "f.txt" "hello\nworld" "/tmp/sandbox" "/"
      ⟨["/tmp/sandbox"], []⟩ "/tmp/sandbox/f.txt" rfl).trans rfl⟩

/-- Code-point order on strings, as Python `sorted` compares them. -/
def strLtChars : List Char → List Char → Bool
  | [], [] => false
  | [], _ :: _ => true
  | _ :: _, [] => false
  | a :: as, b :: bs => if a < b then true else if b < a then false else strLtChars as bs

/-- Whether a list of strings is in nondecreasing code-point order. -/
def sortedStrings : List String → Bool
  | [] => true
  | [_] => true
  | a :: b :: rest => !strLtChars b.data a.data && sortedStrings (b :: rest)

/-- Claim C7 counterexample: `search_files` does not sort.  On a state
whose enumeration order lists `z.py` before `a.py`, the result is
`z.py\na.py` — the matches in enumeration order, not sorted.  The
source calls `glob.glob` and joins its results directly; `glob` returns
entries in directory-scan order, which the OS does not guarantee to be
sorted. -/
theorem search_files_unsorted_counterexample :
    (toolSearchFiles "*.py" "." "/tmp/sandbox" "/"
        ⟨["/tmp/sandbox"], [("/tmp/sandbox/z.py", "1"), ("/tmp/sandbox/a.py", "2")]⟩).result =
      Except.ok (joinWith "\n" ["z.py", "a.py"]) ∧
    sortedStrings ["z.py", "a.py"] = false :=
  ⟨rfl, rfl⟩

/-- Claim C7 (amended): for every pattern and successfully sanitized
path, `search_files` returns the newline-joined glob matches expressed
relative to the sanitized root, in filesystem enumeration order (a
sublist of the enumeration, so order-preserving but not sorted). -/
theorem search_files_relative_enum_order
    (pattern path basePath cwd : String) (fs : FS) (sp : String)
    (h : sanitizePath path basePath cwd = Except.ok sp) :
    (toolSearchFiles pattern path basePath cwd fs).result =
      Except.ok (joinWith "\n"
        ((globMatches fs (pyJoin sp pattern)).map (fun m => relpath cwd m sp))) ∧
    List.Sublist (globMatches fs (pyJoin sp pattern)) (enumFS fs) := by
  constructor
  · simp [toolSearchFiles, h]
  · exact List.filter_sublist (enumFS fs)

/-- Witness for C7 (amended) at the spec's example: pattern `*.py` on a
root holding `a.txt` and `b.py` returns exactly `b.py`. -/
theorem search_files_relative_enum_order_witness :
    sanitizePath "." "/tmp/sandbox" "/" = Except.ok "/tmp/sandbox" ∧
    (toolSearchFiles "*.py" "." "/tmp/sandbox" "/"
        ⟨["/tmp/sandbox"], [("/tmp/sandbox/a.txt", "x"), ("/tmp/sandbox/b.py", "y")]⟩).result =
      Except.ok "b.py" :=
  ⟨rfl,
   ((search_files_relative_enum_order "*.py" "." "/tmp/sandbox" "/"
        ⟨["/tmp/sandbox"], [("/tmp/sandbox/a.txt", "x"), ("/tmp/sandbox/b.py", "y")]⟩
        "/tmp/sandbox" rfl).1).trans rfl⟩

/-- Claim C8: for a successfully sanitized path, `write_file` reports
success naming the original pre-sanitised relative path (not the
sanitized absolute one), stores the content at the sanitized path
(overwriting any previous binding), and ensures the whole chain of
missing intermediate directories exists. -/
theorem write_file_creates_dirs_and_reports_original_path
    (p c basePath cwd : String) (fs : FS) (sp : String)
    (h : sanitizePath p basePath cwd = Except.ok sp) :
    (toolWriteFile p c basePath cwd fs).result =
      Except.ok ("Successfully wrote to " ++ p) ∧
    lookupFile (toolWriteFile p c basePath cwd fs).fs.files sp = some c ∧
    (dirname sp ≠ "" →
      ∀ a ∈ ancestorChain (dirname sp), a ∈ (toolWriteFile p c basePath cwd fs).fs.dirs) := by
  refine ⟨?_, ?_, ?_⟩
  · simp [toolWriteFile, h]
  · simp [toolWriteFile, h, lookupFile_setFile]
  · intro hd a ha
    simp [toolWriteFile, h, hd, mkdirs]
    by_cases hm : a ∈ fs.dirs
    · exact Or.inl hm
    · exact Or.inr ⟨ha, hm⟩

/-- Witness for C8: writing `sub/dir/f.txt` over an existing file
creates `/tmp/sandbox/sub` and `/tmp/sandbox/sub/dir`, overwrites the
binding, and reports the original relative path. -/
theorem write_file_creates_dirs_witness :
    sanitizePath "sub/dir/f.txt" "/tmp/sandbox" "/" =
      Except.ok "/tmp/sandbox/sub/dir/f.txt" ∧
    (toolWriteFile "sub/dir/f.txt" "new" "/tmp/sandbox" "/"
        ⟨["/tmp/sandbox"], [("/tmp/sandbox/sub/dir/f.txt", "old")]⟩).result =
      Except.ok "Successfully wrote to sub/dir/f.txt" ∧
    lookupFile (toolWriteFile "sub/dir/f.txt" "new" "/tmp/sandbox" "/"
        ⟨["/tmp/sandbox"], [("/tmp/sandbox/sub/dir/f.txt", "old")]⟩).fs.files
        "/tmp/sandbox/sub/dir/f.txt" = some "new" ∧
    "/tmp/sandbox/sub/dir" ∈ (toolWriteFile "sub/dir/f.txt" "new" "/tmp/sandbox" "/"
        ⟨["/tmp/sandbox"], [("/tmp/sandbox/sub/dir/f.txt", "old")]⟩).fs.dirs :=
  ⟨rfl,
   (write_file_creates_dirs_and_reports_original_path "sub/dir/f.txt" "new" "/tmp/sandbox" "/"
      ⟨["/tmp/sandbox"], [("/tmp/sandbox/sub/dir/f.txt", "old")]⟩
      "/tmp/sandbox/sub/dir/f.txt" rfl).1.trans rfl,
   (write_file_creates_dirs_and_reports_original_path "sub/dir/f.txt" "new" "/tmp/sandbox" "/"
      ⟨["/tmp/sandbox"], [("/tmp/sandbox/sub/dir/f.txt", "old")]⟩
      "/tmp/sandbox/sub/dir/f.txt" rfl).2.1,
   (write_file_creates_dirs_and_reports_original_path "sub/dir/f.txt" "new" "/tmp/sandbox" "/"
      ⟨["/tmp/sandbox"], [("/tmp/sandbox/sub/dir/f.txt", "old")]⟩
      "/tmp/sandbox/sub/dir/f.txt" rfl).2.2 (by decide) "/tmp/sandbox/sub/dir" (by decide)⟩

/-- The transcript segments of a response, written from the spec's
words: each tool call, in the order received, executed on the state left
by its predecessors and rendered as `Tool <name>: <result>`; each
message contributes its `output_text` texts. -/
def transcriptSegs (basePath cwd : String) : List RespItem → FS → List String × FS
  | [], fs => ([], fs)
  | RespItem.functionCall n a :: rest, fs =>
      let r := executeTool n a basePath cwd fs
      let t := transcriptSegs basePath cwd rest r.2
      (("Tool " ++ n ++ ": " ++ r.1) :: t.1, t.2)
  | RespItem.message cs :: rest, fs =>
      let t := transcriptSegs basePath cwd rest fs
      (outputTexts cs ++ t.1, t.2)
  | RespItem.otherItem :: rest, fs => transcriptSegs basePath cwd rest fs

/-- The function calls of a response, in the order received. -/
def callsOf : List RespItem → List (String × List (String × String))
  | [] => []
  | RespItem.functionCall n a :: rest => (n, a) :: callsOf rest
  | _ :: rest => callsOf rest

/-- Sequential execution of a list of calls, each on the state left by
the previous one. -/
def runCalls (basePath cwd : String) (calls : List (String × List (String × String))) (fs : FS) : FS :=
  calls.foldl (fun s nc => (executeTool nc.1 nc.2 basePath cwd s).2) fs

/-- The orchestrator's fold equals the spec-side segment recursion, for
any already-accumulated results. -/
theorem foldl_respStep (basePath cwd : String) :
    ∀ (items : List RespItem) (acc : List String) (fs : FS),
      List.foldl (respStep basePath cwd) (acc, fs) items =
        (acc ++ (transcriptSegs basePath cwd items fs).1,
         (transcriptSegs basePath cwd items fs).2) := by
  intro items
  induction items with
  | nil => intro acc fs; simp [transcriptSegs]
  | cons it rest ih =>
    intro acc fs
    cases it with
    | functionCall n a => simp [respStep, transcriptSegs, ih]
    | message cs => simp [respStep, transcriptSegs, ih]
    | otherItem => simp [respStep, transcriptSegs, ih]

/-- The final state of the segment recursion is the sequential execution
of exactly the function calls, in order. -/
theorem transcriptSegs_snd_eq_runCalls (basePath cwd : String) :
    ∀ (items : List RespItem) (fs : FS),
      (transcriptSegs basePath cwd items fs).2 = runCalls basePath cwd (callsOf items) fs := by
  intro items
  induction items with
  | nil => intro fs; simp [transcriptSegs, callsOf, runCalls]
  | cons it rest ih =>
    intro fs
    cases it with
    | functionCall n a => simp [transcriptSegs, callsOf, runCalls, ih]
    | message cs => simp [transcriptSegs, callsOf, runCalls, ih]
    | otherItem => simp [transcriptSegs, callsOf, runCalls, ih]

/-- Claim C9: `_process_response` executes the tool calls sequentially
in the order received (its final state is the left-to-right execution of
exactly the response's function calls), prefixes each tool result with
`Tool <name>: `, and newline-joins those results with the messages'
`output_text` segments into a single transcript string. -/
theorem processResponse_sequential_transcript
    (items : List RespItem) (basePath cwd : String) (fs : FS) :
    processResponse items basePath cwd fs =
      (joinWith "\n" (transcriptSegs basePath cwd items fs).1,
       (transcriptSegs basePath cwd items fs).2) ∧
    (processResponse items basePath cwd fs).2 =
      runCalls basePath cwd (callsOf items) fs := by
  constructor
  · simp [processResponse, foldl_respStep]
  · simp [processResponse, foldl_respStep, transcriptSegs_snd_eq_runCalls]

/-- Claim C10 (implicit): an absolute `path` argument makes
`os.path.join` discard the sandbox root entirely, so the sanitizer
resolves the supplied absolute path on its own and accepts exactly when
its normalised string form starts with the absolute root, returning that
normalised path rather than a root-relative resolution. -/
theorem sanitize_absolute_path_bypass (p basePath cwd : String)
    (h : pyStartswith p "/" = true) :
    sanitizePath p basePath cwd =
      (if pyStartswith (normpath p) (abspath cwd basePath) then Except.ok (normpath p)
       else Except.error ("Path \x27" ++ p ++ "\x27 is outside allowed directory")) := by
  simp [sanitizePath, pyJoin, abspath, h]

/-- Witness for C10: `/etc/passwd` bypasses the join against
`/tmp/sandbox` and is rejected only by the string check, while
`/tmp/sandboxed` — outside the sandbox — is accepted. -/
theorem sanitize_absolute_path_bypass_witness :
    pyStartswith "/etc/passwd" "/" = true ∧
    sanitizePath "/etc/passwd" "/tmp/sandbox" "/" =
      Except.error "Path \x27/etc/passwd\x27 is outside allowed directory" ∧
    sanitizePath "/tmp/sandboxed" "/tmp/sandbox" "/" = Except.ok "/tmp/sandboxed" :=
  ⟨rfl,
   (sanitize_absolute_path_bypass "/etc/passwd" "/tmp/sandbox" "/" rfl).trans rfl,
   rfl⟩
